import Mathlib

/-!
Verification of the OPT3002 light-sensor driver (files `OPT3002.h`,
`src/OPT3002.cpp`, `src/OPT3002.h`).  The C++ code is shallowly embedded:
machine integers become `Nat` with explicit `% 2^w` where a narrowing store
occurs, two-byte buffers become `Nat × Nat` (index 0, index 1), and the I2C
transport (the `Wire` collaborator) becomes an explicit environment record
describing the outcome of one bus transaction.
-/

namespace OPT3002

/-- Register addresses of the sensor, from `enum OPT3002_REGISTER` in
`src/OPT3002.h`: RESULT = 0x00, CONFIG = 0x01, LOW_LIMIT = 0x02,
HIGH_LIMIT = 0x03, MANUFACTURER_ID = 0x7E. -/
def RESULT : Nat := 0x00

def CONFIG : Nat := 0x01

def LOW_LIMIT : Nat := 0x02

def HIGH_LIMIT : Nat := 0x03

def MANUFACTURER_ID : Nat := 0x7E

/-- Expected manufacturer id, `OPT3002_MANUFACTURER_ID = 0x5449` in the header. -/
def OPT3002_MANUFACTURER_ID : Nat := 0x5449

/-- Default device address `OPT3002_DEFAULT_ADDRESS = 0x44`. -/
def OPT3002_DEFAULT_ADDRESS : Nat := 0x44

/-- The bit-fields of the 16-bit union `opt3002_config_t` from
`src/OPT3002.h`, least significant first:
`interrupt_fault_limit:2`, `mask_exponent_field_enabled:1`,
`interrupt_active_high_enabled:1`, `interrupt_latch_enabled:1`,
`low_limit_triggered:1`, `high_limit_triggered:1`,
`conversion_ready_triggered:1`, `overflow_triggered:1`,
`conversion_mode:2`, `long_conversion_enabled:1`, `range:4`.
Each `bool`/narrow field is modelled as a `Nat` holding the field value. -/
structure Config where
  interrupt_fault_limit : Nat
  mask_exponent_field_enabled : Nat
  interrupt_active_high_enabled : Nat
  interrupt_latch_enabled : Nat
  low_limit_triggered : Nat
  high_limit_triggered : Nat
  conversion_ready_triggered : Nat
  overflow_triggered : Nat
  conversion_mode : Nat
  long_conversion_enabled : Nat
  range : Nat
deriving DecidableEq, Repr

/-- Reading the named bit-fields of `opt3002_config_t` after storing a raw
16-bit value `v` in the union member `raw` (little-endian host, GCC
bit-field allocation from bit 0 of each byte). -/
def Config.decode (v : Nat) : Config where
  interrupt_fault_limit := v % 4
  mask_exponent_field_enabled := v / 4 % 2
  interrupt_active_high_enabled := v / 8 % 2
  interrupt_latch_enabled := v / 16 % 2
  low_limit_triggered := v / 32 % 2
  high_limit_triggered := v / 64 % 2
  conversion_ready_triggered := v / 128 % 2
  overflow_triggered := v / 256 % 2
  conversion_mode := v / 512 % 4
  long_conversion_enabled := v / 2048 % 2
  range := v / 4096 % 16

/-- The raw 16-bit value obtained by storing each named bit-field of
`opt3002_config_t` (a bit-field store truncates to the field width,
hence the `%` on every field) and reading back the union member `raw`. -/
def Config.encode (c : Config) : Nat :=
  c.interrupt_fault_limit % 4 +
  4 * (c.mask_exponent_field_enabled % 2) +
  8 * (c.interrupt_active_high_enabled % 2) +
  16 * (c.interrupt_latch_enabled % 2) +
  32 * (c.low_limit_triggered % 2) +
  64 * (c.high_limit_triggered % 2) +
  128 * (c.conversion_ready_triggered % 2) +
  256 * (c.overflow_triggered % 2) +
  512 * (c.conversion_mode % 4) +
  2048 * (c.long_conversion_enabled % 2) +
  4096 * (c.range % 16)

/-- The bit-fields of the 16-bit union `opt3002_result_t` from
`src/OPT3002.h`: `reading:12` (bits 0-11) and `exponent:4` (bits 12-15). -/
structure Result where
  reading : Nat
  exponent : Nat
deriving DecidableEq, Repr

/-- Reading the bit-fields of `opt3002_result_t` after storing a raw
16-bit value in the union member `raw`. -/
def Result.decode (v : Nat) : Result where
  reading := v % 4096
  exponent := v / 4096 % 16

/-- The raw 16-bit value obtained by storing the two bit-fields of
`opt3002_result_t` (stores truncate to the field width) and reading back
the union member `raw`. -/
def Result.encode (r : Result) : Nat :=
  r.reading % 4096 + 4096 * (r.exponent % 16)

/-- Embedding of `OPT3002::set_address` (`src/OPT3002.cpp`):
`address |= 0b1000100; address = address & 0b1000111;` stored into
`_device_address`.  The returned value is the stored address. -/
def set_address (address : Nat) : Nat :=
  ((address ||| 0b1000100) &&& 0b1000111)

/-- Embedding of `float OPT3002::convert_measurement(opt3002_result_t)`:
`uint32_t exponent = 1 << input.exponent; uint32_t output =
input.reading * exponent * 1.2; return output;`.  The `double`
multiplication by `1.2` followed by the truncating `uint32_t` store is
modelled as exact multiplication by 6/5 with floor division; at the
inputs used below the `double` product (2456.400000000000090... and
39321.599999999998544...) truncates to the same integer as the exact
rational, so the model agrees with the compiled code there. -/
def convert_measurement (input : Result) : Nat :=
  let exponent := 1 <<< input.exponent
  let output := input.reading * exponent * 6 / 5
  output

/-- The loop of `opt3002_result_t OPT3002::convert_measurement(float)`:
`while (fractional >= (1 << 12) and exponent < (1 << 4)) { fractional /= 2;
exponent++; }`.  Structural fuel replaces the C `while`; the guard demands
`exponent < 16`, so starting from `exponent = 0` the loop body runs at
most 16 times and fuel 16 reproduces the loop exactly. -/
def convert_loop : Nat → Nat → Nat → Nat × Nat
  | 0, fractional, exponent => (fractional, exponent)
  | fuel + 1, fractional, exponent =>
    if 4096 ≤ fractional ∧ exponent < 16 then
      convert_loop fuel (fractional / 2) (exponent + 1)
    else (fractional, exponent)

/-- Embedding of `opt3002_result_t OPT3002::convert_measurement(float input)`
from the point where the intermediate `uint16 fractional = input / 1.2;`
has been formed: `fractional` ranges over the values of that 16-bit
variable (the float division and float-to-uint16 conversion themselves are
not modelled).  After the loop the fields are stored into the bit-fields
`reading:12` and `exponent:4`, truncating to the field widths. -/
def convert_measurement_from_frac (fractional : Nat) : Result :=
  { reading := (convert_loop 16 fractional 0).1 % 4096
    exponent := (convert_loop 16 fractional 0).2 % 16 }

/-- Outcome of one I2C transaction as supplied by the `Wire` collaborator:
`end_status` is the value `Wire.endTransmission()` returns for the
address/write phase (0 means success), `available` is how many bytes the
bus delivers after `Wire.requestFrom`, and `wire0`, `wire1` are the first
and second bytes `Wire.read()` yields. -/
structure I2CEnv where
  end_status : Nat
  available : Nat
  wire0 : Nat
  wire1 : Nat
deriving DecidableEq, Repr

/-- Record of one bus transaction performed by the driver: the device
address given to `Wire.beginTransmission`, the register address
transmitted first, the payload bytes transmitted after it (empty for a
read), and whether the transaction was a register write. -/
structure Tx where
  dev : Nat
  reg : Nat
  sent : List Nat
  isWrite : Bool
deriving DecidableEq, Repr

/-- All bytes passed to `Wire.write` during a transaction: the register
address followed by the payload. -/
def Tx.wireBytes (t : Tx) : List Nat := t.reg :: t.sent

/-- Result of the primitive register write: the returned boolean and the
transaction performed. -/
structure WriteOut where
  ok : Bool
  tx : Tx
deriving DecidableEq, Repr

/-- Result of the primitive register read: the returned boolean, the final
contents of the caller's two-byte output buffer, and the transaction
performed. -/
structure ReadOut where
  ok : Bool
  buf : Nat × Nat
  tx : Tx
deriving DecidableEq, Repr

/-- Embedding of `bool OPT3002::write(uint8_t *input, opt3002_reg_t address)`:
begin a transmission to `_device_address`, send the register address, then
`input[1]` followed by `input[0]`; the result starts `true` and becomes
`false` when `Wire.endTransmission()` is non-zero.  `Wire.write` takes a
`uint8_t`, hence the `% 256` on the payload bytes. -/
def write (dev : Nat) (input : Nat × Nat) (address : Nat) (env : I2CEnv) : WriteOut :=
  let result := true
  let sent := [input.2 % 256, input.1 % 256]
  let result := if env.end_status ≠ 0 then false else result
  { ok := result, tx := { dev := dev, reg := address, sent := sent, isWrite := true } }

/-- Embedding of `bool OPT3002::read(uint8_t *output, opt3002_reg_t address)`:
send the register address; if `Wire.endTransmission()` is non-zero return
`false` touching nothing, otherwise request two bytes and store wire byte
`i` into `output[1 - i]` while bytes are available (`Wire.read` yields a
`uint8_t`, hence the `% 256`). -/
def read (dev : Nat) (output : Nat × Nat) (address : Nat) (env : I2CEnv) : ReadOut :=
  if env.end_status ≠ 0 then
    { ok := false, buf := output
      tx := { dev := dev, reg := address, sent := [], isWrite := false } }
  else
    let out1 := if 1 ≤ env.available then env.wire0 % 256 else output.2
    let out0 := if 2 ≤ env.available then env.wire1 % 256 else output.1
    { ok := true, buf := (out0, out1)
      tx := { dev := dev, reg := address, sent := [], isWrite := false } }

/-- The raw 16-bit value of a two-byte host buffer: the structs are stored
little-endian on the host, so byte 0 is the low byte. -/
def rawOfBuf (b : Nat × Nat) : Nat := b.1 + 256 * b.2

/-- The two host bytes of a raw 16-bit value, little-endian. -/
def bufOfRaw (v : Nat) : Nat × Nat := (v % 256, v / 256 % 256)

/-- Embedding of `void OPT3002::write(opt3002_config_t config)` (declared
`write_config` in the header): writes the config bytes to register
CONFIG; the boolean result of the primitive `write` is discarded (the
method returns `void`), so only the transaction remains. -/
def write_config (dev : Nat) (config : Config) (env : I2CEnv) : Tx :=
  (write dev (bufOfRaw (Config.encode config)) CONFIG env).tx

/-- Embedding of `void OPT3002::read(opt3002_config_t &config)` (declared
`read_config` in the header): reads register CONFIG into the caller's
config; the primitive boolean is discarded. -/
def read_config (dev : Nat) (env : I2CEnv) (buffer : Nat × Nat) : Config × Tx :=
  let r := read dev buffer CONFIG env
  (Config.decode (rawOfBuf r.buf), r.tx)

/-- Embedding of `opt3002_config_t OPT3002::get_config()`: declares an
uninitialized local config (modelled by the `buffer` parameter), reads
into it discarding the boolean, and returns it. -/
def get_config (dev : Nat) (env : I2CEnv) (buffer : Nat × Nat) : Config × Tx :=
  let r := read dev buffer CONFIG env
  (Config.decode (rawOfBuf r.buf), r.tx)

/-- Embedding of `bool OPT3002::check_comms()`: reads two bytes from the
MANUFACTURER_ID register into an uninitialized local buffer (modelled by
the `buffer` parameter) IGNORING the boolean result of `read`, assembles
`uint16_t(buffer[1]) << 8 | buffer[0]`, and compares it with 0x5449. -/
def check_comms (dev : Nat) (env : I2CEnv) (buffer : Nat × Nat) : Bool × Tx :=
  let r := read dev buffer MANUFACTURER_ID env
  let manufacturer_id := (r.buf.2 <<< 8) ||| r.buf.1
  (manufacturer_id == OPT3002_MANUFACTURER_ID, r.tx)

/-- Embedding of `uint32_t OPT3002::get_optical_power()`: reads the RESULT
register into an uninitialized local result (modelled by `buffer`),
discarding the boolean, converts it, and casts the float to `uint32_t`
(`convert_measurement` already truncated, so the cast changes nothing). -/
def get_optical_power (dev : Nat) (env : I2CEnv) (buffer : Nat × Nat) : Nat × Tx :=
  let r := read dev buffer RESULT env
  let result := Result.decode (rawOfBuf r.buf)
  (convert_measurement result, r.tx)

/-- Embedding of `bool OPT3002::begin(uint8_t address)`:
`set_address(address); return check_comms();`.  Returns the stored device
address, the boolean result, and the single transaction performed. -/
def begin (address : Nat) (env : I2CEnv) (buffer : Nat × Nat) : Nat × Bool × Tx :=
  let dev := set_address address
  let c := check_comms dev env buffer
  (dev, c.1, c.2)

/-- Embedding of `void OPT3002::set_high_limit(opt3002_result_t)`: writes
the limit bytes to HIGH_LIMIT, discarding the primitive boolean. -/
def set_high_limit (dev : Nat) (high_limit : Result) (env : I2CEnv) : Tx :=
  (write dev (bufOfRaw (Result.encode high_limit)) HIGH_LIMIT env).tx

/-- Embedding of `void OPT3002::set_high_limit(float)`: encodes via
`convert_measurement(float)` (entered at its 16-bit intermediate, see
`convert_measurement_from_frac`) and calls the register overload. -/
def set_high_limit_float (dev : Nat) (fractional : Nat) (env : I2CEnv) : Tx :=
  set_high_limit dev (convert_measurement_from_frac fractional) env

/-- Embedding of `opt3002_result_t OPT3002::get_high_limit()`. -/
def get_high_limit (dev : Nat) (env : I2CEnv) (buffer : Nat × Nat) : Result × Tx :=
  let r := read dev buffer HIGH_LIMIT env
  (Result.decode (rawOfBuf r.buf), r.tx)

/-- Embedding of `void OPT3002::set_low_limit(opt3002_result_t)`. -/
def set_low_limit (dev : Nat) (low_limit : Result) (env : I2CEnv) : Tx :=
  (write dev (bufOfRaw (Result.encode low_limit)) LOW_LIMIT env).tx

/-- Embedding of `void OPT3002::set_low_limit(float)`. -/
def set_low_limit_float (dev : Nat) (fractional : Nat) (env : I2CEnv) : Tx :=
  set_low_limit dev (convert_measurement_from_frac fractional) env

/-- Embedding of `opt3002_result_t OPT3002::get_low_limit()`. -/
def get_low_limit (dev : Nat) (env : I2CEnv) (buffer : Nat × Nat) : Result × Tx :=
  let r := read dev buffer LOW_LIMIT env
  (Result.decode (rawOfBuf r.buf), r.tx)

/-- Driver state: the single data member `uint8_t _device_address`. -/
structure DriverState where
  _device_address : Nat
deriving DecidableEq, Repr

/-- The public operations of the driver other than `set_address` and
`begin`, each with the call arguments it needs (`buffer` arguments model
the uninitialized locals the corresponding method reads into; `float`
arguments are given by their 16-bit intermediate). -/
inductive PubOp where
  | check_comms (buffer : Nat × Nat)
  | get_config (buffer : Nat × Nat)
  | read_config (buffer : Nat × Nat)
  | write_config (config : Config)
  | get_optical_power (buffer : Nat × Nat)
  | set_high_limit (v : Result)
  | set_high_limit_float (fractional : Nat)
  | get_high_limit (buffer : Nat × Nat)
  | set_low_limit (v : Result)
  | set_low_limit_float (fractional : Nat)
  | get_low_limit (buffer : Nat × Nat)
  | convert_result (input : Result)
  | convert_float (fractional : Nat)
deriving DecidableEq, Repr

/-- One public operation run against the driver state: none of these
methods assigns `_device_address`, so the state passed on is the state the
method body leaves behind, and the bus transactions it performs are
collected. -/
def step (s : DriverState) (op : PubOp) (env : I2CEnv) : DriverState × List Tx :=
  match op with
  | .check_comms buffer => (s, [(check_comms s._device_address env buffer).2])
  | .get_config buffer => (s, [(get_config s._device_address env buffer).2])
  | .read_config buffer => (s, [(read_config s._device_address env buffer).2])
  | .write_config config => (s, [write_config s._device_address config env])
  | .get_optical_power buffer => (s, [(get_optical_power s._device_address env buffer).2])
  | .set_high_limit v => (s, [set_high_limit s._device_address v env])
  | .set_high_limit_float fractional => (s, [set_high_limit_float s._device_address fractional env])
  | .get_high_limit buffer => (s, [(get_high_limit s._device_address env buffer).2])
  | .set_low_limit v => (s, [set_low_limit s._device_address v env])
  | .set_low_limit_float fractional => (s, [set_low_limit_float s._device_address fractional env])
  | .get_low_limit buffer => (s, [(get_low_limit s._device_address env buffer).2])
  | .convert_result _ => (s, [])
  | .convert_float _ => (s, [])

/-- A sequence of public operations run in order, collecting all bus
transactions. -/
def run (s : DriverState) : List (PubOp × I2CEnv) → DriverState × List Tx
  | [] => (s, [])
  | (op, env) :: rest =>
    ((run (step s op env).1 rest).1, (step s op env).2 ++ (run (step s op env).1 rest).2)

end OPT3002

/-- C1: for every raw 16-bit value `v`, storing `v` into `raw` of
`opt3002_config_t` (and of `opt3002_result_t`) and reassembling the 16-bit
value from the named bit-fields reproduces `v` exactly: the fields cover
all 16 bits with no padding, so the round-trip is lossless for both
register types. -/
theorem C1_bitfield_roundtrip (v : Nat) (h : v < 65536) :
    OPT3002.Config.encode (OPT3002.Config.decode v) = v ∧
    OPT3002.Result.encode (OPT3002.Result.decode v) = v := by
  unfold OPT3002.Config.encode OPT3002.Config.decode
    OPT3002.Result.encode OPT3002.Result.decode
  constructor <;> simp only [] <;> omega

/-- Witness for C1 at the concrete raw value 0xB7A5. -/
theorem C1_bitfield_roundtrip_witness :
    OPT3002.Config.encode (OPT3002.Config.decode 0xB7A5) = 0xB7A5 ∧
    OPT3002.Result.encode (OPT3002.Result.decode 0xB7A5) = 0xB7A5 :=
  C1_bitfield_roundtrip 0xB7A5 (by decide)

set_option maxRecDepth 4096

/-- C5: for every 8-bit input `raw`, `set_address raw` stores
`(raw | 0x44) & 0x47`; concretely `set_address 0x00 = 0x44`,
`set_address 0x47 = 0x47`, `set_address 0xFF = 0x47`, and the stored
address always lies in {0x44, 0x45, 0x46, 0x47}. -/
theorem C5_set_address_spec (raw : Nat) (h : raw < 256) :
    OPT3002.set_address raw = ((raw ||| 0x44) &&& 0x47) ∧
    (OPT3002.set_address raw = 0x44 ∨ OPT3002.set_address raw = 0x45 ∨
     OPT3002.set_address raw = 0x46 ∨ OPT3002.set_address raw = 0x47) ∧
    OPT3002.set_address 0x00 = 0x44 ∧
    OPT3002.set_address 0x47 = 0x47 ∧
    OPT3002.set_address 0xFF = 0x47 := by
  revert h
  revert raw
  decide

/-- Witness for C5 at the concrete raw input 0x12. -/
theorem C5_set_address_spec_witness :
    OPT3002.set_address 0x12 = ((0x12 ||| 0x44) &&& 0x47) ∧
    (OPT3002.set_address 0x12 = 0x44 ∨ OPT3002.set_address 0x12 = 0x45 ∨
     OPT3002.set_address 0x12 = 0x46 ∨ OPT3002.set_address 0x12 = 0x47) ∧
    OPT3002.set_address 0x00 = 0x44 ∧
    OPT3002.set_address 0x47 = 0x47 ∧
    OPT3002.set_address 0xFF = 0x47 :=
  C5_set_address_spec 0x12 (by decide)

namespace OPT3002

/-- Helper: the transaction record of the primitive read does not depend on
the environment branch taken. -/
theorem read_tx (dev reg : Nat) (output : Nat × Nat) (env : I2CEnv) :
    (read dev output reg env).tx =
      { dev := dev, reg := reg, sent := [], isWrite := false } := by
  unfold read
  split <;> rfl

/-- Helper: the transaction record of the primitive write. -/
theorem write_tx (dev reg : Nat) (input : Nat × Nat) (env : I2CEnv) :
    (write dev input reg env).tx =
      { dev := dev, reg := reg, sent := [input.2 % 256, input.1 % 256], isWrite := true } := rfl

/-- Helper: every iteration bound for the encoder loop.  If the value fits
below `4096 * 2 ^ k`, `k` halvings suffice, so with enough fuel and room in
the exponent budget the loop ends below 4096 having added at most `k`. -/
theorem convert_loop_bound (fuel : Nat) : ∀ k f e, f < 4096 * 2 ^ k → k ≤ fuel →
    e + k ≤ 16 → (convert_loop fuel f e).1 < 4096 ∧ (convert_loop fuel f e).2 ≤ e + k := by
  induction fuel with
  | zero =>
    intro k f e h1 h2 h3
    have hk : k = 0 := by omega
    subst hk
    simp only [pow_zero, mul_one] at h1
    simp only [convert_loop]
    omega
  | succ fuel ih =>
    intro k f e h1 h2 h3
    simp only [convert_loop]
    split
    case isTrue hg =>
      obtain ⟨hf, he⟩ := hg
      cases k with
      | zero =>
        simp only [pow_zero, mul_one] at h1
        omega
      | succ k =>
        rw [pow_succ] at h1
        have hdiv : f / 2 < 4096 * 2 ^ k := by omega
        have hres := ih k (f / 2) (e + 1) hdiv (by omega) (by omega)
        exact ⟨hres.1, by omega⟩
    case isFalse hg =>
      rw [not_and, not_lt] at hg
      refine ⟨?_, by omega⟩
      rcases Nat.lt_or_ge f 4096 with hlt | hge
      · exact hlt
      · have he := hg hge
        have hk : k = 0 := by omega
        subst hk
        simpa using h1

/-- Helper: a single public operation (other than `set_address`/`begin`)
leaves `_device_address` unchanged and every bus transaction it performs
targets that address. -/
theorem step_frame (s : DriverState) (op : PubOp) (env : I2CEnv) :
    (step s op env).1 = s ∧ ∀ tx ∈ (step s op env).2, tx.dev = s._device_address := by
  cases op <;>
    simp [step, check_comms, get_config, read_config, write_config, get_optical_power,
      set_high_limit, set_high_limit_float, get_high_limit, set_low_limit,
      set_low_limit_float, get_low_limit, read_tx, write_tx]

/-- Helper: a sequence of public operations leaves `_device_address`
unchanged and every transaction in the collected trace targets it. -/
theorem run_frame (ops : List (PubOp × I2CEnv)) : ∀ s : DriverState,
    (run s ops).1 = s ∧ ∀ tx ∈ (run s ops).2, tx.dev = s._device_address := by
  induction ops with
  | nil =>
    intro s
    simp [run]
  | cons p rest ih =>
    obtain ⟨op, env⟩ := p
    intro s
    have h1 := step_frame s op env
    have h2 := ih (step s op env).1
    simp only [run, List.mem_append]
    constructor
    · rw [h2.1, h1.1]
    · intro tx htx
      rcases htx with h | h
      · exact h1.2 tx h
      · have hdev := h2.2 tx h
        rw [h1.1] at hdev
        exact hdev

end OPT3002

/-- C2 (amended): `begin(address)` stores `set_address(address)` as device
address, returns exactly the boolean result of the manufacturer-ID check,
and performs no configuration write at all: its only bus transaction is
the read of the MANUFACTURER_ID register. -/
theorem C2_begin_spec (address : Nat) (env : OPT3002.I2CEnv) (buffer : Nat × Nat) :
    (OPT3002.begin address env buffer).1 = OPT3002.set_address address ∧
    (OPT3002.begin address env buffer).2.1 =
      (OPT3002.check_comms (OPT3002.set_address address) env buffer).1 ∧
    (OPT3002.begin address env buffer).2.2.isWrite = false ∧
    (OPT3002.begin address env buffer).2.2.reg = OPT3002.MANUFACTURER_ID := by
  refine ⟨rfl, rfl, ?_, ?_⟩ <;>
    simp [OPT3002.begin, OPT3002.check_comms, OPT3002.read_tx]

/-- C2 counterexample: with a bus environment on which the manufacturer-ID
check succeeds (`begin` returns `true`), `begin` still performs no write to
the configuration register: its single transaction is a read of register
0x7E, refuting that a successful check is followed by a configuration
write. -/
theorem C2_begin_success_no_write_cex :
    (OPT3002.begin 0x44 ⟨0, 2, 0x54, 0x49⟩ (0, 0)).2.1 = true ∧
    (OPT3002.begin 0x44 ⟨0, 2, 0x54, 0x49⟩ (0, 0)).2.2.isWrite = false ∧
    (OPT3002.begin 0x44 ⟨0, 2, 0x54, 0x49⟩ (0, 0)).2.2.reg = 0x7E := by decide

/-- C3: although the address-phase of the manufacturer-ID read reports a
transport failure (`read` returns `false`), `check_comms` ignores that
result and compares whatever the uninitialized stack buffer held; when the
leftover bytes are buffer[0] = 0x49, buffer[1] = 0x54 it returns `true`,
contradicting the claim that any transport failure yields `false`. -/
theorem C3_check_comms_transport_bug :
    (OPT3002.read 0x44 (0x49, 0x54) OPT3002.MANUFACTURER_ID ⟨1, 0, 0, 0⟩).ok = false ∧
    (OPT3002.check_comms 0x44 ⟨1, 0, 0, 0⟩ (0x49, 0x54)).1 = true := by decide

/-- C4 (amended): the encoder loop operates on the 16-bit intermediate
`uint16 fractional = input / 1.2`, so for every possible intermediate the
loop terminates with reading < 4096 and exponent at most 4; the exponent
never reaches 15, no out-of-range encoding is produced, and the
guard-permitted bound 16 is never attained either. -/
theorem C4_encoder_never_saturates (fractional : Nat) (h : fractional < 65536) :
    (OPT3002.convert_measurement_from_frac fractional).reading < 4096 ∧
    (OPT3002.convert_measurement_from_frac fractional).exponent ≤ 4 := by
  have hb := OPT3002.convert_loop_bound 16 4 fractional 0 (by simpa using h)
    (by norm_num) (by norm_num)
  simp only [OPT3002.convert_measurement_from_frac]
  omega

/-- Witness for C4 (amended) at the largest 16-bit intermediate. -/
theorem C4_encoder_never_saturates_witness :
    65535 < 65536 ∧
    ((OPT3002.convert_measurement_from_frac 65535).reading < 4096 ∧
     (OPT3002.convert_measurement_from_frac 65535).exponent ≤ 4) :=
  ⟨by decide, C4_encoder_never_saturates 65535 (by decide)⟩

/-- C4 counterexample: the largest value the 16-bit intermediate can hold,
65535 (the image of every saturating large input), encodes to reading 4095
with exponent 4 — not the exponent 15 the claim requires for inputs too
large for the mantissa range. -/
theorem C4_no_exponent15_cex :
    OPT3002.convert_measurement_from_frac 65535 = { reading := 4095, exponent := 4 } ∧
    (OPT3002.convert_measurement_from_frac 65535).exponent ≠ 15 := by decide

/-- C6: `write` transmits the register address, then host byte 1, then
host byte 0; `read` stores the first wire byte at host index 1 and the
second at host index 0; consequently writing a 16-bit host value and then
reading back the same wire bytes (MSB first) reproduces the identical host
bytes. -/
theorem C6_byteswap_roundtrip (dev reg b0 b1 c0 c1 : Nat) (env : OPT3002.I2CEnv)
    (h0 : b0 < 256) (h1 : b1 < 256) :
    (OPT3002.write dev (b0, b1) reg env).tx.wireBytes = [reg, b1, b0] ∧
    (OPT3002.read dev (c0, c1) reg ⟨0, 2, b1, b0⟩).ok = true ∧
    (OPT3002.read dev (c0, c1) reg ⟨0, 2, b1, b0⟩).buf = (b0, b1) := by
  unfold OPT3002.write OPT3002.read OPT3002.Tx.wireBytes
  simp [Nat.mod_eq_of_lt h0, Nat.mod_eq_of_lt h1]

/-- Witness for C6 at concrete bytes 0xAB, 0xCD. -/
theorem C6_byteswap_roundtrip_witness :
    (OPT3002.write 0x44 (0xAB, 0xCD) 0x03 ⟨0, 0, 0, 0⟩).tx.wireBytes = [0x03, 0xCD, 0xAB] ∧
    (OPT3002.read 0x44 (7, 9) 0x03 ⟨0, 2, 0xCD, 0xAB⟩).ok = true ∧
    (OPT3002.read 0x44 (7, 9) 0x03 ⟨0, 2, 0xCD, 0xAB⟩).buf = (0xAB, 0xCD) :=
  C6_byteswap_roundtrip 0x44 0x03 0xAB 0xCD 7 9 ⟨0, 0, 0, 0⟩ (by decide) (by decide)

/-- C7: converting reading 2047 with exponent 0 yields 2456 and reading 1
with exponent 15 yields 39321 after integer truncation of
`reading * 2^exponent * 1.2`; via the full `get_optical_power` path a
RESULT register holding raw 0x07FF likewise yields 2456. -/
theorem C7_conversion_vectors :
    OPT3002.convert_measurement ⟨2047, 0⟩ = 2456 ∧
    OPT3002.convert_measurement ⟨1, 15⟩ = 39321 ∧
    (OPT3002.get_optical_power 0x44 ⟨0, 2, 0x07, 0xFF⟩ (0, 0)).1 = 2456 := by decide

/-- C8 (amended): a non-zero bus status is surfaced as `false` by the
primitive register read and write: their boolean result is `true` exactly
when `endTransmission` returned 0. -/
theorem C8_primitive_failure_surfaced (dev reg b0 b1 c0 c1 : Nat) (env : OPT3002.I2CEnv) :
    ((OPT3002.write dev (b0, b1) reg env).ok = true ↔ env.end_status = 0) ∧
    ((OPT3002.read dev (c0, c1) reg env).ok = true ↔ env.end_status = 0) := by
  unfold OPT3002.write OPT3002.read
  by_cases h : env.end_status = 0 <;> simp [h]

/-- C8 counterexample: the higher-level operations discard the primitive
boolean, so a failed and a successful transaction can be observationally
identical to their caller: `get_high_limit` returns the same value under a
failing bus (status 1, untouched zero buffer) and a succeeding bus
(status 0, zero wire bytes), and the `void` setter `set_high_limit`
produces identical results under both environments. -/
theorem C8_failure_not_observable_cex :
    (⟨1, 0, 0, 0⟩ : OPT3002.I2CEnv).end_status ≠ 0 ∧
    (⟨0, 2, 0, 0⟩ : OPT3002.I2CEnv).end_status = 0 ∧
    (OPT3002.get_high_limit 0x44 ⟨1, 0, 0, 0⟩ (0, 0)).1 =
      (OPT3002.get_high_limit 0x44 ⟨0, 2, 0, 0⟩ (0, 0)).1 ∧
    OPT3002.set_high_limit 0x44 ⟨0, 0⟩ ⟨1, 0, 0, 0⟩ =
      OPT3002.set_high_limit 0x44 ⟨0, 0⟩ ⟨0, 2, 0, 0⟩ := by decide

/-- C9: when the register-address write phase of `read` fails (non-zero
`endTransmission`), `read` returns `false` and the caller's output buffer
is returned exactly as it was passed in. -/
theorem C9_read_failure_preserves_buffer (dev reg : Nat) (output : Nat × Nat)
    (env : OPT3002.I2CEnv) (h : env.end_status ≠ 0) :
    OPT3002.read dev output reg env =
      { ok := false, buf := output
        tx := { dev := dev, reg := reg, sent := [], isWrite := false } } := by
  unfold OPT3002.read
  simp [h]

/-- Witness for C9 at a concrete failing environment and buffer (7, 9). -/
theorem C9_read_failure_preserves_buffer_witness :
    (⟨5, 2, 1, 2⟩ : OPT3002.I2CEnv).end_status ≠ 0 ∧
    OPT3002.read 0x44 (7, 9) 0x00 ⟨5, 2, 1, 2⟩ =
      { ok := false, buf := (7, 9)
        tx := { dev := 0x44, reg := 0x00, sent := [], isWrite := false } } :=
  ⟨by decide, C9_read_failure_preserves_buffer 0x44 0x00 (7, 9) ⟨5, 2, 1, 2⟩ (by decide)⟩

/-- C10: after `set_address a`, any sequence of the other public
operations leaves `_device_address` unchanged, and every bus transaction
in the collected trace targets the address computed from `a`. -/
theorem C10_address_frame (a : Nat) (ops : List (OPT3002.PubOp × OPT3002.I2CEnv)) :
    (OPT3002.run ⟨OPT3002.set_address a⟩ ops).1 = ⟨OPT3002.set_address a⟩ ∧
    ((OPT3002.run ⟨OPT3002.set_address a⟩ ops).2.all
      fun tx => tx.dev == OPT3002.set_address a) = true := by
  have h := OPT3002.run_frame ops ⟨OPT3002.set_address a⟩
  refine ⟨h.1, ?_⟩
  rw [List.all_eq_true]
  intro tx htx
  simpa using h.2 tx htx
